import Mathlib

/-!
Verification of the signal-singaravelan trading bot against its design
specification.  The definitions below are a shallow embedding of the Python
sources under src/trader-bot/algo_trader: JSON payloads become the inductive
type JValue, exceptions become the TradeError / PyExc types, the requests
session is abstracted into explicit response arguments (for the one nested
call, the confirmation POST, the gateway is a function from the posted
confirmation id to its JSON reply), and floats become exact rationals.
-/

/-- JSON values as delivered by the IBKR gateway.  Numbers are modelled as
exact rationals. -/
inductive JValue where
  | null : JValue
  | bool : Bool → JValue
  | num : ℚ → JValue
  | str : String → JValue
  | arr : List JValue → JValue
  | obj : List (String × JValue) → JValue

/-- First binding of a key in an association list (Python dict lookup; the
dicts built from JSON have distinct keys, so first-match is exact). -/
def lookupField : List (String × JValue) → String → Option JValue
  | [], _ => none
  | (k, v) :: rest, key => if k = key then some v else lookupField rest key

/-- Python dict .get(key): some value when the key is present on an object,
none otherwise (and none on every non-object, where Python would raise; the
code only calls .get on response parts that are dicts). -/
def JValue.getField : JValue → String → Option JValue
  | .obj fields, key => lookupField fields key
  | _, _ => none

/-- Python truthiness of a JSON value. -/
def JValue.truthy : JValue → Bool
  | .null => false
  | .bool b => b
  | .num q => decide (q ≠ 0)
  | .str s => decide (s ≠ "")
  | .arr xs => !xs.isEmpty
  | .obj fs => !fs.isEmpty

/-- isinstance(result, dict). -/
def JValue.isDict : JValue → Bool
  | .obj _ => true
  | _ => false

/-- Exceptions raised by the client code itself: OrderRejectionError carries
the message (a JSON value in the source, since rejections[0] is passed
straight through) and the rejection_details dict; every other raise in the
modelled code paths is a plain Exception with a message. -/
inductive TradeError where
  | orderRejection : JValue → JValue → TradeError
  | generic : String → TradeError

namespace IBKRClient

/-- The message ids registered for gateway-side suppression in
IBKRClient.__init__ (src/trader-bot/algo_trader/clients/ibkr_client.py,
lines 35-45). -/
def suppressMessageIds : List String :=
  ["o163", "o354", "o382", "o383", "o403", "o451", "o10151", "o10164", "o10223"]

/-- rejection_details = result.get("cqe", \x7b\x7d). -/
def cqeOf (result : JValue) : JValue :=
  (result.getField "cqe").getD (.obj [])

/-- The nested-rejection extraction inside the shared rejection-check block:
if rejection_details is truthy and has key "post_payload", read
post_payload.get("rejections", []) and, when that is a truthy list, use its
first element.  (A truthy non-list "rejections" value, which Python would
index, is not modelled; the gateway sends a list.) -/
def nestedRejection (details : JValue) : Option JValue :=
  if details.truthy && (details.getField "post_payload").isSome then
    match (details.getField "post_payload").bind (fun pp => pp.getField "rejections") with
    | some (.arr (r :: _)) => some r
    | _ => none
  else none

/-- The rejection check shared by _place_market_order and _confirm_order
(lines 227-242 and 279-294): when the parsed response is a dict carrying an
"error" key, raise OrderRejectionError with the nested rejection reason if
available, else the top-level error message. -/
def checkRejection (result : JValue) : Option TradeError :=
  match result with
  | .obj _ =>
    match result.getField "error" with
    | some errMsg =>
      let details := cqeOf result
      match nestedRejection details with
      | some r => some (.orderRejection r details)
      | none => some (.orderRejection errMsg details)
    | none => none
  | _ => none

/-- The body of _confirm_order (lines 266-308) applied to the gateway reply
to the confirmation POST: rejection check first, then order_id extraction
from a non-empty list (element 0) or from a dict; None otherwise. -/
def confirmOrderResult (result : JValue) : Except TradeError (Option JValue) :=
  match checkRejection result with
  | some e => .error e
  | none =>
    match result with
    | .arr (first :: _) => .ok (first.getField "order_id")
    | .obj _ => .ok (result.getField "order_id")
    | _ => .ok none

/-- _place_market_order (lines 214-264).  The first argument is the gateway:
the JSON reply it returns to posting \x7bconfirmed: true\x7d at a given
confirmation id; the second is the parsed response to the order-submission
POST.  The result pairs the Python return value (an exception or an optional
order id) with the list of confirmation ids that were acknowledged, in
order, so that theorems can speak about how many confirmation rounds the
protocol performed. -/
def placeMarketOrder (reply : JValue → JValue) (result : JValue) :
    Except TradeError (Option JValue) × List JValue :=
  match checkRejection result with
  | some e => (.error e, [])
  | none =>
    match result with
    | .arr (first :: _) =>
      let orderId := first.getField "order_id"
      match first.getField "id" with
      | some c =>
        if c.truthy then
          match confirmOrderResult (reply c) with
          | .error e => (.error e, [c])
          | .ok confOid => (.ok (if orderId.isNone then confOid else orderId), [c])
        else (.ok orderId, [])
      | none => (.ok orderId, [])
    | _ => (.ok none, [])

/-- _suppress_order_reply_messages (lines 70-81) applied to the parsed
gateway reply: the reported status must equal "submitted" or the call
raises. -/
def suppressOrderReplyMessages (resp : JValue) : Except TradeError Unit :=
  match resp.getField "status" with
  | some (.str s) =>
    if s = "submitted" then .ok ()
    else .error (.generic "Failed to suppress order reply messages")
  | _ => .error (.generic "Failed to suppress order reply messages")

/-- Python float(v) for the value shapes the gateway sends: numbers convert
exactly, booleans to 0/1; anything else is a conversion failure (Python
would raise; numeric strings are not sent on the modelled endpoints). -/
def pyFloat : JValue → Option ℚ
  | .num q => some q
  | .bool b => some (if b then 1 else 0)
  | _ => none

/-- get_price (lines 145-159) applied to the parsed history response:
bars = data.get("data", []); when bars is a truthy list, take the last bar
and return float(bar.get("c")) when present; every other path raises
"Price not found". -/
def getPrice (resp : JValue) : Except TradeError ℚ :=
  match (resp.getField "data").getD (.arr []) with
  | .arr (b0 :: bs) =>
    match ((b0 :: bs).getLast?).getD .null |>.getField "c" with
    | some c =>
      match pyFloat c with
      | some q => .ok q
      | none => .error (.generic "could not convert close price to float")
    | none => .error (.generic "Price not found for contract ID")
  | _ => .error (.generic "Price not found for contract ID")

/-- Python comparison position.get("conid") == conid with conid an int:
true exactly when the stored value is that number.  (Python would also
equate bool True with 1; the gateway sends numeric conids.) -/
def jEqNum (v : JValue) (q : ℚ) : Bool :=
  match v with
  | .num q2 => decide (q2 = q)
  | _ => false

/-- The scan loop of get_position (lines 171-178): first entry whose conid
matches and whose "position" key is present is converted with float() and
returned; a matching entry without a position value is skipped; if the scan
finishes, 0.0 is returned. -/
def findPosition (conid : ℚ) : List JValue → Except TradeError ℚ
  | [] => .ok 0
  | p :: rest =>
    if jEqNum ((p.getField "conid").getD .null) conid then
      match p.getField "position" with
      | some v =>
        match pyFloat v with
        | some q => .ok q
        | none => .error (.generic "could not convert position to float")
      | none => findPosition conid rest
    else findPosition conid rest

/-- get_position (lines 161-178) applied to the parsed positions response:
raises unless the body is a list, else scans it with findPosition. -/
def getPosition (conid : ℚ) (resp : JValue) : Except TradeError ℚ :=
  match resp with
  | .arr ps => findPosition conid ps
  | _ => .error (.generic "Unexpected response format for positions")

end IBKRClient

/-!  RetryPolicy: src/trader-bot/algo_trader/utils/decorators.py.  -/

/-- A raised Python exception, identified by its type name (the kind, which
is what the no_retry_exceptions isinstance test inspects; no subclassing is
involved in this repository) and its message. -/
structure PyExc where
  kind : String
  msg : String
deriving DecidableEq

/-- What one call of a retry-wrapped operation produces: the final outcome,
how many times the wrapped function was invoked, and the sequence of sleep
durations, in order. -/
structure RetryResult (α : Type) where
  outcome : Except PyExc α
  invocations : ℕ
  sleeps : List ℚ

/-- The while loop of the retry wrapper (decorators.py lines 21-37).  The
wrapped operation is modelled as a function from the 0-based attempt index
to its outcome.  remaining = max_attempts - attempts counts down;
idx, wait, invs and the reversed sleep log thread the loop state.  On an
exception whose kind is in the no-retry list the loop re-raises at once;
otherwise it sleeps (only while attempts < max_attempts remains true after
the increment) and multiplies the wait by the backoff.  Falling out of the
loop raises the terminal Exception naming the function and max_attempts. -/
def retryAux {α : Type} (f : ℕ → Except PyExc α) (noRetry : List String)
    (name : String) (maxAttempts : ℕ) (backoff : ℚ)
    (remaining idx : ℕ) (wait : ℚ) (invs : ℕ) (sleeps : List ℚ) : RetryResult α :=
  match remaining with
  | 0 =>
    ⟨.error ⟨"Exception", name ++ " failed after " ++ toString maxAttempts ++ " retries"⟩,
      invs, sleeps.reverse⟩
  | r + 1 =>
    match f idx with
    | .ok v => ⟨.ok v, invs + 1, sleeps.reverse⟩
    | .error e =>
      if noRetry.contains e.kind then
        ⟨.error e, invs + 1, sleeps.reverse⟩
      else
        retryAux f noRetry name maxAttempts backoff r (idx + 1)
          (if r = 0 then wait else wait * backoff) (invs + 1)
          (if r = 0 then sleeps else wait :: sleeps)

/-- One run of a function wrapped by @retry(max_attempts, delay, backoff,
no_retry_exceptions). -/
def retryRun {α : Type} (f : ℕ → Except PyExc α) (noRetry : List String)
    (name : String) (maxAttempts : ℕ) (delay backoff : ℚ) : RetryResult α :=
  retryAux f noRetry name maxAttempts backoff maxAttempts 0 delay 0 []

/-- Retry configuration from utils/config.py. -/
def MAX_RETRY_ATTEMPTS : ℕ := 3

def RETRY_DELAY : ℚ := 2

def RETRY_BACKOFF : ℚ := 2

/-!  Commission estimate: src/trader-bot/algo_trader/core/trader.py.  -/

/-- Python round(q, 2) on the exact rational value of its argument:
correctly rounded to a multiple of 1/100 with ties going to the even
multiple (round-half-even, the documented behaviour of round on the exact
value of the float argument). -/
def pyRound2 (q : ℚ) : ℚ :=
  let n := q * 100
  let f := ⌊n⌋
  let r := n - f
  (if r < 1 / 2 then (f : ℚ)
   else if 1 / 2 < r then (f : ℚ) + 1
   else if f % 2 = 0 then (f : ℚ) else (f : ℚ) + 1) / 100

namespace Trader

/-- IBKR commission rate constants (trader.py lines 14-20), as exact
decimals. -/
def TIERED_RATE_PER_SHARE : ℚ := 35 / 10000

def TIERED_MIN_COMMISSION : ℚ := 35 / 100

def TIERED_MAX_COMMISSION_PCT : ℚ := 1 / 100

def FIXED_RATE_PER_SHARE : ℚ := 5 / 1000

def FIXED_MIN_COMMISSION : ℚ := 1

/-- Python str.upper() for the ASCII schedule names in use. -/
def pyUpper (s : String) : String := String.mk (s.toList.map Char.toUpper)

/-- _get_ibkr_commission (trader.py lines 135-152): tiered is per-share rate
clamped below by the minimum and above by 1 percent of trade value; fixed is
per-share rate clamped below by the minimum; any other schedule name is a
ValueError; the result is rounded to 2 decimals. -/
def getIbkrCommission (quantity price : ℚ) (commissionType : String) :
    Except TradeError ℚ :=
  let tradeValue := quantity * price
  if pyUpper commissionType = "TIERED" then
    .ok (pyRound2 (min (max (quantity * TIERED_RATE_PER_SHARE) TIERED_MIN_COMMISSION)
      (tradeValue * TIERED_MAX_COMMISSION_PCT)))
  else if pyUpper commissionType = "FIXED" then
    .ok (pyRound2 (max (quantity * FIXED_RATE_PER_SHARE) FIXED_MIN_COMMISSION))
  else
    .error (.generic "Invalid commission_type. Must be TIERED or FIXED.")

end Trader

/-!  Trade record: src/trader-bot/algo_trader/models/trade.py and
logging/trade_logger.py.  -/

/-- A wall-clock timestamp as produced by datetime.now() (local time). -/
structure PyDateTime where
  year : ℕ
  month : ℕ
  day : ℕ
  hour : ℕ
  minute : ℕ
  second : ℕ

/-- Two-digit zero padding as done by the strftime numeric directives. -/
def pad2 (n : ℕ) : String :=
  if n < 10 then "0" ++ toString n else toString n

/-- timestamp.strftime("%Y%m%d_%H%M%S"): the compact date, an underscore,
then the compact time. -/
def strftimeCompact (t : PyDateTime) : String :=
  toString t.year ++ pad2 t.month ++ pad2 t.day ++ "_"
    ++ pad2 t.hour ++ pad2 t.minute ++ pad2 t.second

/-- The Trade dataclass (trade.py lines 8-26) after __post_init__ ran:
shares are rounded to 2 decimal places and a missing timestamp has been
replaced by now. -/
structure Trade where
  account_id : String
  action : String
  symbol : String
  dollar_amount : ℚ
  shares : ℚ
  order_id : Option String
  timestamp : PyDateTime

/-- Construction of a Trade followed by __post_init__ (trade.py lines
20-26): now is the value datetime.now() would produce. -/
def mkTrade (account_id action symbol : String) (dollar_amount shares : ℚ)
    (order_id : Option String) (timestamp : Option PyDateTime)
    (now : PyDateTime) : Trade :=
  { account_id := account_id
    action := action
    symbol := symbol
    dollar_amount := dollar_amount
    shares := pyRound2 shares
    order_id := order_id
    timestamp := timestamp.getD now }

/-- The order id a trade carries after TradeLogger.log_trade ran (lines
39-41 and 54): the existing id, or the synthesized
ORD_ + strftime("%Y%m%d_%H%M%S") stamp when absent. -/
def logTradeOrderId (t : Trade) : String :=
  match t.order_id with
  | some oid => oid
  | none => "ORD_" ++ strftimeCompact t.timestamp

/-- The trade record as it stands once log_trade has ensured an order id. -/
def logTrade (t : Trade) : Trade :=
  { t with order_id := some (logTradeOrderId t) }

/-- The exact value of the IEEE-754 double nearest to the literal 12.345
(6949617174986097 times 2 to the minus 49; the double sits just above
12.345, which is what decides which way Python round goes at the tie). -/
def shares12_345 : ℚ := 6949617174986097 / 562949953421312

/-- The order-id pattern asserted by the specification, read literally:
ORD_ followed by exactly 14 digits. -/
def claimOrderIdPattern (s : String) : Bool :=
  match s.toList with
  | 'O' :: 'R' :: 'D' :: '_' :: rest => (rest.length == 14) && rest.all Char.isDigit
  | _ => false

/-- The order-id shape the code actually synthesizes: ORD_, 8 digits, an
underscore, then 6 digits. -/
def codeOrderIdPattern (s : String) : Bool :=
  match s.toList with
  | 'O' :: 'R' :: 'D' :: '_' :: rest =>
    (rest.length == 15) && ((rest.take 8).all Char.isDigit)
      && ((rest.drop 8).headD ' ' == '_') && (rest.drop 9).all Char.isDigit
  | _ => false

/-!  Specification-side definitions, written from the wording of spec.md so
that the source-translated functions can be compared against them.  -/

/-- The rejection-reason rule as the specification words it: the first
entry of the structured "rejections" list nested under the
cash-quantity-estimate block when that list is present and non-empty,
otherwise the top-level error message. -/
def specRejectionReason (r : JValue) : JValue :=
  match ((r.getField "cqe").bind (fun c => c.getField "post_payload")).bind
      (fun pp => pp.getField "rejections") with
  | some (.arr (x :: _)) => x
  | _ => (r.getField "error").getD .null

/-- Modelled from the spec: the price-lookup fallback chain of spec.md
section 4.2 ("last price, then mark price, then prior close; first
parseable numeric value"), which appears in no source file.  Field names
are representative, since the spec names the fields only by role. -/
def specPriceChain (resp : JValue) : Except TradeError ℚ :=
  match (resp.getField "lastPrice").bind IBKRClient.pyFloat with
  | some q => .ok q
  | none =>
    match (resp.getField "markPrice").bind IBKRClient.pyFloat with
    | some q => .ok q
    | none =>
      match (resp.getField "priorClose").bind IBKRClient.pyFloat with
      | some q => .ok q
      | none => .error (.generic "no price field present or parseable")

/-- A mock gateway whose every confirmation reply carries a fresh truthy
confirmation id (the id posted to, with an N appended) and no order id, as
in the exhaustion scenario of spec.md section 8. -/
def alwaysNewIdGateway : JValue → JValue :=
  fun c =>
    .arr [.obj [("id", .str ((match c with | .str s => s | _ => "c") ++ "N"))]]

/-- TradeError as the retry decorator sees it when raised through a wrapped
call: OrderRejectionError keeps its type name, every other raise in the
modelled paths is a plain Exception. -/
def TradeError.toPyExc : TradeError → PyExc
  | .orderRejection reason _ =>
    ⟨"OrderRejectionError", match reason with | .str s => s | _ => ""⟩
  | .generic m => ⟨"Exception", m⟩

/-- _place_market_order as the zero-argument operation the retry decorator
at line 214 wraps: the function is pure in this model, so every attempt
returns the same outcome. -/
def placeMarketOrderOp (reply : JValue → JValue) (submitResp : JValue) :
    ℕ → Except PyExc (Option JValue) :=
  fun _ =>
    match (IBKRClient.placeMarketOrder reply submitResp).1 with
    | .ok o => .ok o
    | .error e => .error e.toPyExc


/-!  Helper lemmas.  -/

/-- Unfolding lemma for the base case of the retry loop. -/
lemma retryAux_zero {α : Type} (f : ℕ → Except PyExc α) (noRetry : List String)
    (name : String) (maxA : ℕ) (backoff : ℚ) (idx : ℕ) (wait : ℚ) (invs : ℕ)
    (sleeps : List ℚ) :
    retryAux f noRetry name maxA backoff 0 idx wait invs sleeps =
      ⟨.error ⟨"Exception", name ++ " failed after " ++ toString maxA ++ " retries"⟩,
        invs, sleeps.reverse⟩ := rfl

/-- Unfolding lemma for the inductive case of the retry loop. -/
lemma retryAux_succ {α : Type} (f : ℕ → Except PyExc α) (noRetry : List String)
    (name : String) (maxA : ℕ) (backoff : ℚ) (r idx : ℕ) (wait : ℚ) (invs : ℕ)
    (sleeps : List ℚ) :
    retryAux f noRetry name maxA backoff (r + 1) idx wait invs sleeps =
      (match f idx with
       | .ok v => ⟨.ok v, invs + 1, sleeps.reverse⟩
       | .error e =>
         if noRetry.contains e.kind then
           ⟨.error e, invs + 1, sleeps.reverse⟩
         else
           retryAux f noRetry name maxA backoff r (idx + 1)
             (if r = 0 then wait else wait * backoff) (invs + 1)
             (if r = 0 then sleeps else wait :: sleeps)) := rfl

/-- The loop step when the current attempt fails with a non-retryable
error: immediate re-raise. -/
lemma retryAux_succ_fatal {α : Type} {f : ℕ → Except PyExc α} {noRetry : List String}
    (name : String) (maxA : ℕ) (backoff : ℚ) (r idx : ℕ) (wait : ℚ) (invs : ℕ)
    (sleeps : List ℚ) {e : PyExc} (hf : f idx = .error e)
    (hc : noRetry.contains e.kind = true) :
    retryAux f noRetry name maxA backoff (r + 1) idx wait invs sleeps =
      ⟨.error e, invs + 1, sleeps.reverse⟩ := by
  rw [retryAux_succ, hf]
  simp only [hc, eq_self_iff_true, if_true]

/-- The loop step when the current attempt fails with a retryable error:
proceed to the next attempt. -/
lemma retryAux_succ_retryable {α : Type} {f : ℕ → Except PyExc α} {noRetry : List String}
    (name : String) (maxA : ℕ) (backoff : ℚ) (r idx : ℕ) (wait : ℚ) (invs : ℕ)
    (sleeps : List ℚ) {e : PyExc} (hf : f idx = .error e)
    (hc : noRetry.contains e.kind = false) :
    retryAux f noRetry name maxA backoff (r + 1) idx wait invs sleeps =
      retryAux f noRetry name maxA backoff r (idx + 1)
        (if r = 0 then wait else wait * backoff) (invs + 1)
        (if r = 0 then sleeps else wait :: sleeps) := by
  rw [retryAux_succ, hf]
  simp only [hc, Bool.false_eq_true, if_false]

/-- When every remaining attempt fails with a retryable error, the loop ends
in the terminal exhaustion error after consuming all remaining attempts. -/
lemma retryAux_all_fail {α : Type} (f : ℕ → Except PyExc α) (noRetry : List String)
    (name : String) (maxA : ℕ) (backoff : ℚ) :
    ∀ (remaining idx : ℕ) (wait : ℚ) (invs : ℕ) (sleeps : List ℚ),
      (∀ i, idx ≤ i → i < idx + remaining → ∃ e, f i = .error e ∧ e.kind ∉ noRetry) →
      (retryAux f noRetry name maxA backoff remaining idx wait invs sleeps).outcome =
        .error ⟨"Exception", name ++ " failed after " ++ toString maxA ++ " retries"⟩ ∧
      (retryAux f noRetry name maxA backoff remaining idx wait invs sleeps).invocations =
        invs + remaining := by
  intro remaining
  induction remaining with
  | zero => intro idx wait invs sleeps _; exact ⟨rfl, rfl⟩
  | succ r ih =>
    intro idx wait invs sleeps h
    obtain ⟨e, hf, hk⟩ := h idx (le_refl idx) (by omega)
    have hc : noRetry.contains e.kind = false := by simpa using hk
    have hrest : ∀ i, idx + 1 ≤ i → i < (idx + 1) + r →
        ∃ e2, f i = .error e2 ∧ e2.kind ∉ noRetry := by
      intro i h1 h2; exact h i (by omega) (by omega)
    have hrec := ih (idx + 1) (if r = 0 then wait else wait * backoff) (invs + 1)
      (if r = 0 then sleeps else wait :: sleeps) hrest
    rw [retryAux_succ_retryable name maxA backoff r idx wait invs sleeps hf hc]
    exact ⟨hrec.1, by rw [hrec.2]; omega⟩

/-- Claim C5: an invocation that raises an exception whose kind is in the
caller-supplied non-retryable set makes the retry wrapper re-raise it at
once: exactly one invocation, no sleeps, no further attempts. -/
theorem retry_fatal_raises_after_one_attempt {α : Type} (f : ℕ → Except PyExc α)
    (noRetry : List String) (name : String) (n : ℕ) (d b : ℚ) (e : PyExc)
    (hn : 1 ≤ n) (hf : f 0 = .error e) (hk : e.kind ∈ noRetry) :
    retryRun f noRetry name n d b = ⟨.error e, 1, []⟩ := by
  obtain ⟨m, rfl⟩ : ∃ m, n = m + 1 := ⟨n - 1, by omega⟩
  have hc : noRetry.contains e.kind = true := by simpa using hk
  unfold retryRun
  rw [retryAux_succ_fatal name (m + 1) b m 0 d 0 [] hf hc]
  rfl

/-- Witness for C5: a rejection-kind error with the client retry settings is
re-raised after exactly one invocation and no sleep. -/
theorem retry_fatal_raises_after_one_attempt_witness :
    retryRun (fun _ => (.error ⟨"OrderRejectionError", "rejected"⟩ : Except PyExc ℕ))
      ["OrderRejectionError"] "place_sell_order" MAX_RETRY_ATTEMPTS RETRY_DELAY RETRY_BACKOFF =
      ⟨.error ⟨"OrderRejectionError", "rejected"⟩, 1, []⟩ :=
  retry_fatal_raises_after_one_attempt _ _ _ _ _ _ _ (by decide) rfl (by decide)

/-- Counterexample for C6: two operations whose attempts fail with different
last errors produce byte-identical terminal failures, so the terminal
failure raised on exhaustion does not wrap the last observed error (it only
names the operation and the attempt count). -/
theorem retry_terminal_failure_ignores_last_error :
    (retryRun (fun _ => (.error ⟨"ValueError", "boom"⟩ : Except PyExc ℕ)) [] "op" 3 2 2).outcome =
      .error ⟨"Exception", "op failed after 3 retries"⟩ ∧
    (retryRun (fun _ => (.error ⟨"ValueError", "crash"⟩ : Except PyExc ℕ)) [] "op" 3 2 2).outcome =
      .error ⟨"Exception", "op failed after 3 retries"⟩ ∧
    ("boom" : String) ≠ "crash" := by
  refine ⟨?_, ?_, by decide⟩ <;> (simp [retryRun, retryAux]; rfl)

/-- Claim C6 (amended): when all max_attempts invocations fail with
retryable errors, the wrapper raises a terminal failure naming the
operation and the attempt count, after exactly max_attempts invocations;
the terminal failure does not include the last observed error. -/
theorem retry_exhaustion_terminal_failure {α : Type} (f : ℕ → Except PyExc α)
    (noRetry : List String) (name : String) (n : ℕ) (d b : ℚ)
    (hf : ∀ i, i < n → ∃ e, f i = .error e ∧ e.kind ∉ noRetry) :
    (retryRun f noRetry name n d b).outcome =
      .error ⟨"Exception", name ++ " failed after " ++ toString n ++ " retries"⟩ ∧
    (retryRun f noRetry name n d b).invocations = n := by
  have h := retryAux_all_fail f noRetry name n b n 0 d 0 []
    (fun i h1 h2 => hf i (by omega))
  unfold retryRun
  exact ⟨h.1, by rw [h.2]; omega⟩

/-- Witness for C6: an operation always failing with a retryable ValueError
under the client retry settings ends in the terminal message after exactly
3 invocations. -/
theorem retry_exhaustion_terminal_failure_witness :
    (retryRun (fun _ => (.error ⟨"ValueError", "boom"⟩ : Except PyExc ℕ)) []
      "get_price" 3 2 2).outcome =
      .error ⟨"Exception", "get_price failed after 3 retries"⟩ ∧
    (retryRun (fun _ => (.error ⟨"ValueError", "boom"⟩ : Except PyExc ℕ)) []
      "get_price" 3 2 2).invocations = 3 :=
  retry_exhaustion_terminal_failure _ _ _ _ _ _
    (fun i _ => ⟨⟨"ValueError", "boom"⟩, rfl, by simp⟩)

/-- Claim C7: the tiered schedule for 1000 shares at 10 dollars estimates a
3.50 dollar commission, and the fixed schedule for 10 shares at 5 dollars
estimates a 1.00 dollar commission. -/
theorem commission_examples :
    Trader.getIbkrCommission 1000 10 "TIERED" = .ok (7 / 2) ∧
    Trader.getIbkrCommission 10 5 "FIXED" = .ok 1 := by
  constructor
  · have h : Trader.pyUpper "TIERED" = "TIERED" := rfl
    simp only [Trader.getIbkrCommission, h]
    norm_num [Trader.TIERED_RATE_PER_SHARE, Trader.TIERED_MIN_COMMISSION,
      Trader.TIERED_MAX_COMMISSION_PCT, pyRound2, min_def, max_def]
  · have h : Trader.pyUpper "FIXED" = "FIXED" := rfl
    simp only [Trader.getIbkrCommission, h]
    norm_num [Trader.FIXED_RATE_PER_SHARE, Trader.FIXED_MIN_COMMISSION,
      pyRound2, min_def, max_def]
    exact fun hc => absurd hc (by decide)

/-- A successful dict lookup forces a non-empty object, hence truthiness. -/
lemma truthy_of_getField {v : JValue} {k : String} {x : JValue}
    (h : v.getField k = some x) : v.truthy = true := by
  cases v with
  | obj fs =>
    cases fs with
    | nil => simp [JValue.getField, lookupField] at h
    | cons a as => simp [JValue.truthy]
  | null => simp [JValue.getField] at h
  | bool b => simp [JValue.getField] at h
  | num q => simp [JValue.getField] at h
  | str t => simp [JValue.getField] at h
  | arr xs => simp [JValue.getField] at h

/-- The nested-rejection extraction of the code coincides with the plain
optional chain cqe.post_payload.rejections, first element of a non-empty
list. -/
lemma nestedRejection_cqe (r : JValue) :
    IBKRClient.nestedRejection (IBKRClient.cqeOf r) =
      (match ((r.getField "cqe").bind (fun c => c.getField "post_payload")).bind
          (fun pp => pp.getField "rejections") with
       | some (.arr (x :: _)) => some x
       | _ => none) := by
  unfold IBKRClient.cqeOf IBKRClient.nestedRejection
  cases hc : r.getField "cqe" with
  | none => simp [JValue.truthy, JValue.getField]
  | some cq =>
    simp only [Option.getD_some, Option.some_bind]
    cases hp : cq.getField "post_payload" with
    | none => simp [hp]
    | some pp => simp [hp, truthy_of_getField hp]

/-- On a dict response carrying an error key, the rejection check raises
OrderRejectionError with exactly the reason the specification describes and
the cqe block as details. -/
lemma checkRejection_dict_error {r : JValue} (hd : r.isDict = true)
    (he : (r.getField "error").isSome = true) :
    IBKRClient.checkRejection r =
      some (.orderRejection (specRejectionReason r) (IBKRClient.cqeOf r)) := by
  cases r with
  | obj fs =>
    obtain ⟨errMsg, hm⟩ := Option.isSome_iff_exists.mp he
    simp only [IBKRClient.checkRejection, hm]
    rw [nestedRejection_cqe]
    unfold specRejectionReason
    rw [hm]
    cases hn : ((JValue.obj fs).getField "cqe").bind (fun c => c.getField "post_payload")
        |>.bind (fun pp => pp.getField "rejections") with
    | none => simp
    | some v =>
      cases v with
      | arr xs => cases xs with
        | nil => simp
        | cons x rest => simp
      | null => simp
      | bool b => simp
      | num q => simp
      | str t => simp
      | obj gs => simp
  | null => simp [JValue.isDict] at hd
  | bool b => simp [JValue.isDict] at hd
  | num q => simp [JValue.isDict] at hd
  | str t => simp [JValue.isDict] at hd
  | arr xs => simp [JValue.isDict] at hd

/-- Every error the rejection check produces is an OrderRejectionError. -/
lemma checkRejection_shape {r : JValue} {e : TradeError}
    (h : IBKRClient.checkRejection r = some e) :
    ∃ a b, e = TradeError.orderRejection a b := by
  cases r with
  | obj fs =>
    cases hm : (JValue.obj fs).getField "error" with
    | none => simp [IBKRClient.checkRejection, hm] at h
    | some errMsg =>
      simp only [IBKRClient.checkRejection, hm] at h
      cases hn : IBKRClient.nestedRejection (IBKRClient.cqeOf (JValue.obj fs)) with
      | none =>
        rw [hn] at h
        exact ⟨_, _, (Option.some_injective _ h).symm⟩
      | some v =>
        rw [hn] at h
        exact ⟨_, _, (Option.some_injective _ h).symm⟩
  | null => simp [IBKRClient.checkRejection] at h
  | bool b => simp [IBKRClient.checkRejection] at h
  | num q => simp [IBKRClient.checkRejection] at h
  | str t => simp [IBKRClient.checkRejection] at h
  | arr xs => simp [IBKRClient.checkRejection] at h

/-- Every error the confirmation-response handler produces is an
OrderRejectionError. -/
lemma confirmOrderResult_error_shape {x : JValue} {e : TradeError}
    (h : IBKRClient.confirmOrderResult x = .error e) :
    ∃ a b, e = TradeError.orderRejection a b := by
  unfold IBKRClient.confirmOrderResult at h
  split at h
  · rename_i e2 heq
    injection h with h2
    subst h2
    exact checkRejection_shape heq
  · split at h <;> simp at h

/-- Every error _place_market_order produces is an OrderRejectionError:
the only raises on its code path (beside transport errors surfaced by the
HTTP layer, outside this model) are the two rejection checks. -/
lemma placeMarketOrder_error_shape {reply : JValue → JValue} {r : JValue}
    {e : TradeError} {acks : List JValue}
    (h : IBKRClient.placeMarketOrder reply r = (.error e, acks)) :
    ∃ a b, e = TradeError.orderRejection a b := by
  simp only [IBKRClient.placeMarketOrder] at h
  split at h
  · rename_i e2 heq
    rw [Prod.mk.injEq] at h
    obtain ⟨h1, h2⟩ := h
    injection h1 with h3
    subst h3
    exact checkRejection_shape heq
  · split at h
    · split at h
      · split at h
        · split at h
          · rename_i e2 heq2
            rw [Prod.mk.injEq] at h
            obtain ⟨h1, h2⟩ := h
            injection h1 with h3
            subst h3
            exact confirmOrderResult_error_shape heq2
          · rw [Prod.mk.injEq] at h
            obtain ⟨h1, h2⟩ := h
            simp at h1
        · rw [Prod.mk.injEq] at h
          obtain ⟨h1, h2⟩ := h
          simp at h1
      · rw [Prod.mk.injEq] at h
        obtain ⟨h1, h2⟩ := h
        simp at h1
    · rw [Prod.mk.injEq] at h
      obtain ⟨h1, h2⟩ := h
      simp at h1

/-- Claim C2: a submission or confirmation response that is a dict with a
top-level error key makes the protocol raise OrderRejectionError with the
specified reason (first nested rejection if present and non-empty, else the
top-level error message) and perform no further confirmation round: no
acknowledgment is posted after the submission-time rejection, and exactly
the one already-posted acknowledgment precedes a confirmation-time
rejection. -/
theorem order_error_terminates_rejected (reply : JValue → JValue) (r : JValue) :
    (r.isDict = true → (r.getField "error").isSome = true →
      IBKRClient.placeMarketOrder reply r =
        (.error (.orderRejection (specRejectionReason r) (IBKRClient.cqeOf r)), [])) ∧
    (∀ first rest c, r = .arr (first :: rest) → first.getField "id" = some c →
      c.truthy = true → (reply c).isDict = true →
      ((reply c).getField "error").isSome = true →
      IBKRClient.placeMarketOrder reply r =
        (.error (.orderRejection (specRejectionReason (reply c))
          (IBKRClient.cqeOf (reply c))), [c])) := by
  constructor
  · intro hd he
    simp only [IBKRClient.placeMarketOrder, checkRejection_dict_error hd he]
  · intro first rest c hr hid ht hd he
    subst hr
    have hcr : IBKRClient.checkRejection (.arr (first :: rest)) = none := rfl
    have hconf : IBKRClient.confirmOrderResult (reply c) =
        .error (.orderRejection (specRejectionReason (reply c))
          (IBKRClient.cqeOf (reply c))) := by
      unfold IBKRClient.confirmOrderResult
      rw [checkRejection_dict_error hd he]
    simp only [IBKRClient.placeMarketOrder, hcr, hid, ht, hconf,
      eq_self_iff_true, if_true]

/-- Witness for C2: a rejection response whose cqe block nests a non-empty
rejections list terminates the protocol with the first nested rejection as
reason, without any confirmation round. -/
theorem order_error_terminates_rejected_witness :
    IBKRClient.placeMarketOrder (fun _ => .obj [])
      (.obj [("error", .str "TOP"),
        ("cqe", .obj [("post_payload",
          .obj [("rejections", .arr [.str "REJ1", .str "REJ2"])])])]) =
      (.error (.orderRejection (.str "REJ1")
        (.obj [("post_payload",
          .obj [("rejections", .arr [.str "REJ1", .str "REJ2"])])])), []) :=
  (order_error_terminates_rejected (fun _ => .obj [])
    (.obj [("error", .str "TOP"),
      ("cqe", .obj [("post_payload",
        .obj [("rejections", .arr [.str "REJ1", .str "REJ2"])])])])).1 rfl rfl

/-- Counterexample for C1: the protocol returns a success-shaped result
(a normal return, no exception) that carries no order id, for a gateway
response that signals neither an error nor an order id. -/
theorem place_market_order_success_shape_without_id :
    IBKRClient.placeMarketOrder (fun _ => .obj []) (.obj []) = (.ok none, []) := rfl

/-- Claim C1 (amended): the protocol either raises OrderRejectionError (the
only exception it raises itself, distinguishable from transport errors by
type) or returns normally with an optional order id that may be None; under
the retry wrapper configured with OrderRejectionError in the non-retryable
set, every run makes exactly one invocation and never sleeps, so rejections
never enter the retry path. -/
theorem place_market_order_outcome_classified (reply : JValue → JValue) (r : JValue)
    (n : ℕ) (d b : ℚ) (hn : 1 ≤ n) :
    ((∃ oid acks, IBKRClient.placeMarketOrder reply r = (.ok oid, acks)) ∨
      (∃ a bd acks, IBKRClient.placeMarketOrder reply r =
        (.error (.orderRejection a bd), acks))) ∧
    (retryRun (placeMarketOrderOp reply r) ["OrderRejectionError"]
      "_place_market_order" n d b).invocations = 1 ∧
    (retryRun (placeMarketOrderOp reply r) ["OrderRejectionError"]
      "_place_market_order" n d b).sleeps = [] := by
  obtain ⟨m, rfl⟩ : ∃ m, n = m + 1 := ⟨n - 1, by omega⟩
  rcases hp : IBKRClient.placeMarketOrder reply r with ⟨res, acks⟩
  cases res with
  | ok oid =>
    refine ⟨Or.inl ⟨oid, acks, hp ▸ rfl⟩, ?_, ?_⟩ <;>
      (unfold retryRun; rw [retryAux_succ]; simp [placeMarketOrderOp, hp])
  | error e =>
    obtain ⟨a, bd, rfl⟩ := placeMarketOrder_error_shape hp
    refine ⟨Or.inr ⟨a, bd, acks, hp ▸ rfl⟩, ?_, ?_⟩ <;>
      (unfold retryRun; rw [retryAux_succ];
        simp [placeMarketOrderOp, hp, TradeError.toPyExc])

/-- Witness for C1: with the configured retry settings, a concrete run on a
response with no order id makes one invocation and no sleeps. -/
theorem place_market_order_outcome_classified_witness :
    ((∃ oid acks, IBKRClient.placeMarketOrder (fun _ => .obj []) (.obj []) =
        (.ok oid, acks)) ∨
      (∃ a bd acks, IBKRClient.placeMarketOrder (fun _ => .obj []) (.obj []) =
        (.error (.orderRejection a bd), acks))) ∧
    (retryRun (placeMarketOrderOp (fun _ => .obj []) (.obj []))
      ["OrderRejectionError"] "_place_market_order"
      MAX_RETRY_ATTEMPTS RETRY_DELAY RETRY_BACKOFF).invocations = 1 ∧
    (retryRun (placeMarketOrderOp (fun _ => .obj []) (.obj []))
      ["OrderRejectionError"] "_place_market_order"
      MAX_RETRY_ATTEMPTS RETRY_DELAY RETRY_BACKOFF).sleeps = [] :=
  place_market_order_outcome_classified (fun _ => .obj []) (.obj [])
    MAX_RETRY_ATTEMPTS RETRY_DELAY RETRY_BACKOFF (by decide)

/-- Claim C3 (amended): the protocol performs at most one confirmation
round (there is no confirmation loop), and against a gateway whose every
reply carries a fresh confirmation id it returns normally with no order id
after exactly one round. -/
theorem at_most_one_confirmation_round :
    (∀ (reply : JValue → JValue) (r : JValue),
      ((IBKRClient.placeMarketOrder reply r).2).length ≤ 1) ∧
    IBKRClient.placeMarketOrder alwaysNewIdGateway (.arr [.obj [("id", .str "c1")]]) =
      (.ok none, [.str "c1"]) := by
  refine ⟨fun reply r => ?_, rfl⟩
  simp only [IBKRClient.placeMarketOrder]
  split
  · simp
  · split
    · split
      · split
        · split <;> simp
        · simp
      · simp
    · simp

/-- Counterexample for C3: against the always-new-confirmation-id gateway
the protocol terminates after exactly one confirmation round (with a
success-shaped empty result), not at a bound of five rounds. -/
theorem confirmation_rounds_not_five :
    IBKRClient.placeMarketOrder alwaysNewIdGateway (.arr [.obj [("id", .str "c1")]]) =
      (.ok none, [.str "c1"]) ∧
    ((IBKRClient.placeMarketOrder alwaysNewIdGateway
      (.arr [.obj [("id", .str "c1")]])).2).length = 1 ∧
    (1 : ℕ) ≠ 5 :=
  ⟨rfl, rfl, by decide⟩

/-- Counterexample for C4: a confirmation request whose warning code o999
is outside the pre-registered suppression set is still acknowledged (the
confirmed POST happens) and the protocol then succeeds with an order id,
instead of halting without acknowledging. -/
theorem ack_despite_unknown_warning_code :
    IBKRClient.placeMarketOrder (fun _ => .arr [.obj [("order_id", .str "42")]])
      (.arr [.obj [("id", .str "c1"), ("messageIds", .arr [.str "o999"])]]) =
      (.ok (some (.str "42")), [.str "c1"]) ∧
    "o999" ∉ IBKRClient.suppressMessageIds :=
  ⟨rfl, by decide⟩

/-- Claim C4 (amended): the suppression set is registered with the gateway
once at session initialization (a call that must report status submitted),
and during order placement the client posts the confirmed acknowledgment
unconditionally whenever the response carries a truthy confirmation id; no
client-side warning-code membership check exists. -/
theorem confirmation_ack_unconditional (reply : JValue → JValue) (first : JValue)
    (rest : List JValue) (c : JValue) (hid : first.getField "id" = some c)
    (ht : c.truthy = true) :
    (IBKRClient.placeMarketOrder reply (.arr (first :: rest))).2 = [c] ∧
    IBKRClient.suppressOrderReplyMessages (.obj [("status", .str "submitted")]) =
      .ok () := by
  refine ⟨?_, rfl⟩
  have hcr : IBKRClient.checkRejection (.arr (first :: rest)) = none := rfl
  simp only [IBKRClient.placeMarketOrder, hcr, hid, ht, eq_self_iff_true, if_true]
  split <;> rfl

/-- Witness for C4: the acknowledgment list contains exactly the posted
confirmation id even when the response carries an unregistered warning
code. -/
theorem confirmation_ack_unconditional_witness :
    (IBKRClient.placeMarketOrder (fun _ => .arr [.obj []])
      (.arr [.obj [("id", .str "c1"), ("messageIds", .arr [.str "o999"])]])).2 =
      [.str "c1"] ∧
    IBKRClient.suppressOrderReplyMessages (.obj [("status", .str "submitted")]) =
      .ok () :=
  confirmation_ack_unconditional (fun _ => .arr [.obj []])
    (.obj [("id", .str "c1"), ("messageIds", .arr [.str "o999"])]) []
    (.str "c1") rfl rfl

/-- Counterexample for C8: the id synthesized for a trade logged without an
order id at timestamp 2026-01-02 03:04:05 is ORD_20260102_030405, which is
not ORD_ followed by 14 contiguous digits (there is an underscore between
the date and time parts). -/
theorem synthesized_order_id_not_14_digits :
    logTradeOrderId (mkTrade "U123" "Buy" "TQQQ" 100 shares12_345 none none
      ⟨2026, 1, 2, 3, 4, 5⟩) = "ORD_20260102_030405" ∧
    claimOrderIdPattern "ORD_20260102_030405" = false :=
  ⟨rfl, rfl⟩

/-- Claim C8 (amended): constructing a Trade with shares equal to the
double nearest 12.345 stores shares 12.35; a trade logged without an order
id gets the synthesized id ORD_ plus the strftime %Y%m%d_%H%M%S stamp of
its local-time timestamp (8 digits, an underscore, 6 digits, rather than 14
contiguous digits of a UTC stamp), and after logging the order id is never
null. -/
theorem trade_record_rounding_and_order_id (t : Trade) (ht : t.order_id = none) :
    (mkTrade "U123" "Buy" "TQQQ" 100 shares12_345 none none
      ⟨2026, 1, 2, 3, 4, 5⟩).shares = 1235 / 100 ∧
    logTradeOrderId t = "ORD_" ++ strftimeCompact t.timestamp ∧
    (logTrade t).order_id = some (logTradeOrderId t) ∧
    codeOrderIdPattern (logTradeOrderId (mkTrade "U123" "Buy" "TQQQ" 100
      shares12_345 none none ⟨2026, 1, 2, 3, 4, 5⟩)) = true := by
  refine ⟨?_, ?_, rfl, rfl⟩
  · simp only [mkTrade]
    norm_num [pyRound2, shares12_345]
  · simp [logTradeOrderId, ht]

/-- Witness for C8: the concrete trade constructed with shares 12.345 and
no order id. -/
theorem trade_record_rounding_and_order_id_witness :
    (mkTrade "U123" "Buy" "TQQQ" 100 shares12_345 none none
      ⟨2026, 1, 2, 3, 4, 5⟩).shares = 1235 / 100 ∧
    logTradeOrderId (mkTrade "U123" "Buy" "TQQQ" 100 shares12_345 none none
      ⟨2026, 1, 2, 3, 4, 5⟩) =
      "ORD_" ++ strftimeCompact (mkTrade "U123" "Buy" "TQQQ" 100 shares12_345
        none none ⟨2026, 1, 2, 3, 4, 5⟩).timestamp ∧
    (logTrade (mkTrade "U123" "Buy" "TQQQ" 100 shares12_345 none none
      ⟨2026, 1, 2, 3, 4, 5⟩)).order_id =
      some (logTradeOrderId (mkTrade "U123" "Buy" "TQQQ" 100 shares12_345 none
        none ⟨2026, 1, 2, 3, 4, 5⟩)) ∧
    codeOrderIdPattern (logTradeOrderId (mkTrade "U123" "Buy" "TQQQ" 100
      shares12_345 none none ⟨2026, 1, 2, 3, 4, 5⟩)) = true :=
  trade_record_rounding_and_order_id
    (mkTrade "U123" "Buy" "TQQQ" 100 shares12_345 none none
      ⟨2026, 1, 2, 3, 4, 5⟩) rfl

/-- Counterexample for C9: a response carrying a parseable last price makes
the lookup fail (first conjunct), and when history bars are present the
lookup returns the close of the last bar, 7, not the present last price,
42, as the spec-modelled fallback chain would (remaining conjuncts): the
code reads no last/mark/prior-close fields at all. -/
theorem price_fallback_chain_absent :
    IBKRClient.getPrice (.obj [("lastPrice", .num 42)]) =
      .error (.generic "Price not found for contract ID") ∧
    IBKRClient.getPrice (.obj [("lastPrice", .num 42),
      ("data", .arr [.obj [("c", .num 7)]])]) = .ok 7 ∧
    specPriceChain (.obj [("lastPrice", .num 42),
      ("data", .arr [.obj [("c", .num 7)]])]) = .ok 42 :=
  ⟨rfl, rfl, rfl⟩

/-- Claim C9 (amended): the price lookup requests five days of daily
history and returns the close (field c) of the most recent bar; it fails
exactly when the bar list is absent or empty or the last bar lacks a
usable close, and consults no last/mark/prior-close field chain. -/
theorem get_price_last_bar_close (resp : JValue) (bs : List JValue)
    (lastBar : JValue) (c : ℚ)
    (hdata : resp.getField "data" = some (.arr bs))
    (hlast : bs.getLast? = some lastBar)
    (hc : lastBar.getField "c" = some (.num c)) :
    IBKRClient.getPrice resp = .ok c ∧
    (∀ r2 : JValue,
      (r2.getField "data" = none ∨ r2.getField "data" = some (.arr [])) →
      IBKRClient.getPrice r2 =
        .error (.generic "Price not found for contract ID")) := by
  constructor
  · cases bs with
    | nil => simp at hlast
    | cons b0 rest =>
      simp only [IBKRClient.getPrice, hdata, Option.getD_some]
      rw [hlast]
      simp only [Option.getD_some, hc]
      rfl
  · intro r2 h2
    rcases h2 with h2 | h2 <;>
      simp only [IBKRClient.getPrice, h2, Option.getD_some, Option.getD_none]

/-- Witness for C9: a one-bar history response with close 7. -/
theorem get_price_last_bar_close_witness :
    IBKRClient.getPrice (.obj [("data", .arr [.obj [("c", .num 7)]])]) = .ok 7 ∧
    (∀ r2 : JValue,
      (r2.getField "data" = none ∨ r2.getField "data" = some (.arr [])) →
      IBKRClient.getPrice r2 =
        .error (.generic "Price not found for contract ID")) :=
  get_price_last_bar_close (.obj [("data", .arr [.obj [("c", .num 7)]])])
    [.obj [("c", .num 7)]] (.obj [("c", .num 7)]) 7 rfl rfl rfl

/-- Scanning a positions list in which no entry both matches the conid and
carries a position value ends with the 0.0 default. -/
lemma findPosition_no_match (conid : ℚ) :
    ∀ ps : List JValue,
      (∀ p ∈ ps, IBKRClient.jEqNum ((p.getField "conid").getD .null) conid = false ∨
        p.getField "position" = none) →
      IBKRClient.findPosition conid ps = .ok 0 := by
  intro ps
  induction ps with
  | nil => intro _; rfl
  | cons p rest ih =>
    intro h
    have hrest := ih (fun q hq => h q (List.mem_cons_of_mem p hq))
    rcases h p (List.mem_cons_self p rest) with hf | hp
    · simp only [IBKRClient.findPosition, hf, Bool.false_eq_true, if_false]
      exact hrest
    · simp only [IBKRClient.findPosition, hp]
      split <;> exact hrest

/-- Claim C10: a list-shaped positions response with no entry matching the
requested conid (or whose matching entries lack a position value) yields
0.0 rather than an error, and the unexpected-format error is raised exactly
when the response body is not a list. -/
theorem get_position_zero_when_absent (conid : ℚ) (ps : List JValue) (resp : JValue)
    (h : ∀ p ∈ ps, IBKRClient.jEqNum ((p.getField "conid").getD .null) conid = false ∨
      p.getField "position" = none) :
    IBKRClient.getPosition conid (.arr ps) = .ok 0 ∧
    ((∀ qs : List JValue, resp ≠ .arr qs) →
      IBKRClient.getPosition conid resp =
        .error (.generic "Unexpected response format for positions")) := by
  constructor
  · exact findPosition_no_match conid ps h
  · intro hne
    cases resp with
    | arr qs => exact absurd rfl (hne qs)
    | null => rfl
    | bool b => rfl
    | num q => rfl
    | str t => rfl
    | obj fs => rfl

/-- Witness for C10: a two-entry positions list in which the first entry
has another conid and the matching second entry lacks a position value. -/
theorem get_position_zero_when_absent_witness :
    IBKRClient.getPosition 5
      (.arr [.obj [("conid", .num 1), ("position", .num 3)],
        .obj [("conid", .num 5)]]) = .ok 0 ∧
    ((∀ qs : List JValue, (JValue.obj []) ≠ .arr qs) →
      IBKRClient.getPosition 5 (.obj []) =
        .error (.generic "Unexpected response format for positions")) :=
  get_position_zero_when_absent 5
    [.obj [("conid", .num 1), ("position", .num 3)], .obj [("conid", .num 5)]]
    (.obj [])
    (by
      intro p hp
      rcases List.mem_cons.mp hp with h1 | hrest
      · subst h1; exact Or.inl rfl
      · rcases List.mem_cons.mp hrest with h2 | hnil
        · subst h2; exact Or.inr rfl
        · exact absurd hnil (List.not_mem_nil p))

